import Mathlib

/-!
Shallow embedding of the payment/enrollment reconciliation flow of the
veterinary-sarathi course marketplace (Flask + SQLite).

Tables are lists of rows; SQLite constraint behaviour is modelled
explicitly:
* `payments.transaction_id` is declared `TEXT UNIQUE` in `init_db`
  (models.py), so an INSERT or UPDATE that would duplicate a non-NULL
  transaction id raises `sqlite3.IntegrityError`; `Payment.create` and the
  raw UPDATE inside `payment_success` do NOT catch it, modelled with
  `Except`.
* `enrollments` has `UNIQUE(user_id, course_id)`; `Enrollment.create`
  catches the IntegrityError and returns `none`, modelled as a no-op.
* Every model-layer helper opens its own connection and commits at once,
  while the `payment_success` route keeps its payment UPDATEs on one
  connection committed only at the very end; an exception part-way keeps
  the already committed enrollment/cart writes and discards the payment
  updates.

SQLite REAL amounts are modelled as `Int`: every amount in the flow is
copied verbatim from a stored course price into a payment row and summed,
with no fractional arithmetic.
-/

/-- Row of the `payments` table. -/
structure PaymentRow where
  id : Nat
  user_id : Nat
  course_id : Nat
  amount : Int
  transaction_id : Option String
  status : String
deriving DecidableEq, Repr

/-- Row of the `enrollments` table (timestamps omitted). -/
structure EnrollmentRow where
  user_id : Nat
  course_id : Nat
  progress : Int
deriving DecidableEq, Repr

/-- Row of the `cart` table (timestamps omitted; the list is kept in the
order the SELECT of `Cart.get_items` returns). -/
structure CartRow where
  user_id : Nat
  course_id : Nat
deriving DecidableEq, Repr

/-- Row of the `courses` table (only the fields the payment flow reads). -/
structure CourseRow where
  id : Nat
  price : Int
deriving DecidableEq, Repr

/-- The persisted database state: one list per table plus the
AUTOINCREMENT counter of `payments.id`. -/
structure DBState where
  payments : List PaymentRow
  enrollments : List EnrollmentRow
  cart : List CartRow
  courses : List CourseRow
  nextPaymentId : Nat
deriving DecidableEq, Repr

namespace Enrollment

/-- Embeds `Enrollment.is_enrolled` (models.py): SELECT on the
(user_id, course_id) pair. -/
def is_enrolled (st : DBState) (u c : Nat) : Bool :=
  st.enrollments.any (fun e => e.user_id == u && e.course_id == c)

/-- Embeds `Enrollment.create` (models.py): INSERT with the
`UNIQUE(user_id, course_id)` IntegrityError caught and turned into `none`;
`progress` defaults to 0. Commits on its own connection. -/
def create (st : DBState) (u c : Nat) : DBState × Bool :=
  if st.enrollments.any (fun e => e.user_id == u && e.course_id == c) then
    (st, false)
  else
    ({ st with enrollments := st.enrollments ++ [⟨u, c, 0⟩] }, true)

/-- Embeds `Enrollment.update_progress` (models.py): UPDATE of `progress`
on the matching (user_id, course_id) rows. -/
def update_progress (st : DBState) (u c : Nat) (p : Int) : DBState :=
  { st with
    enrollments := st.enrollments.map (fun e =>
      if e.user_id == u && e.course_id == c then { e with progress := p } else e) }

end Enrollment

namespace Payment

/-- Embeds `Payment.create` (models.py): INSERT into `payments`. The
schema declares `transaction_id TEXT UNIQUE` and `Payment.create` does not
catch `sqlite3.IntegrityError`, so inserting a non-NULL transaction id
already present raises, modelled as `Except.error`. Commits on its own
connection on success. -/
def create (st : DBState) (u c : Nat) (amount : Int) (tx : Option String)
    (status : String) : Except Unit (DBState × Nat) :=
  match tx with
  | some t =>
      if st.payments.any (fun p => p.transaction_id == some t) then
        .error ()
      else
        .ok ({ st with
                payments := st.payments ++
                  [⟨st.nextPaymentId, u, c, amount, some t, status⟩],
                nextPaymentId := st.nextPaymentId + 1 }, st.nextPaymentId)
  | none =>
      .ok ({ st with
              payments := st.payments ++
                [⟨st.nextPaymentId, u, c, amount, none, status⟩],
              nextPaymentId := st.nextPaymentId + 1 }, st.nextPaymentId)

end Payment

/-- One row of the join returned by `Cart.get_items`: the fields the cart
checkout loop actually reads (`item.course_id` from the cart row,
`item.price` from the joined course row). -/
structure CartItem where
  course_id : Nat
  price : Int
deriving DecidableEq, Repr

namespace Cart

/-- Embeds `Cart.get_items` (models.py): cart rows of the user joined with
`courses` (the inner JOIN drops a cart row whose course is gone). -/
def get_items (st : DBState) (u : Nat) : List CartItem :=
  (st.cart.filter (fun r => r.user_id == u)).filterMap
    (fun r =>
      (st.courses.find? (fun co => co.id == r.course_id)).map
        (fun co => ⟨r.course_id, co.price⟩))

/-- Embeds `Cart.get_cart_total` (models.py): SUM of the joined course
prices over the same join as `get_items`, 0 when the cart is empty. -/
def get_cart_total (st : DBState) (u : Nat) : Int :=
  ((get_items st u).map (fun i => i.price)).sum

/-- Embeds `Cart.remove_item` (models.py): DELETE of the
(user_id, course_id) pair. Commits on its own connection. -/
def remove_item (st : DBState) (u c : Nat) : DBState :=
  { st with cart := st.cart.filter (fun r => !(r.user_id == u && r.course_id == c)) }

end Cart

/-- Embeds the falsiness test Flask request parameters go through
(`if not oid`): the query parameter is missing or the empty string. -/
def paramBlank (s : Option String) : Bool :=
  match s with
  | none => true
  | some t => t == ""

/-- Embeds `verify_esewa_signature` (routes/payment.py): checks only that
the keys oid, amt and refId are present in the parameter dictionary and
then returns True (the development stub). -/
def verify_esewa_signature (params : List (String × String)) : Bool :=
  ["oid", "amt", "refId"].all (fun k => params.any (fun kv => kv.1 == k))

/-- Outcome of the `payment_success` route (which template/redirect and
flash message the request ends in). -/
inductive SuccessOutcome where
  | invalidParams
  | verifyFailed
  | notFound
  | enrolled
  | exception
deriving DecidableEq, Repr

/-- Embeds the per-payment loop of `payment_success` (routes/payment.py
lines 176-188). `rows` is the snapshot the SELECT fetched; `connPays` is
the `payments` table as seen by the route connection (UPDATEs uncommitted
until the final `conn.commit()`); `st` is the committed state, to which
`Enrollment.create` and `Cart.remove_item` write at once on their own
connections (neither touches `payments`). The UPDATE that renames a row to
`newTx` raises IntegrityError when another row already holds `newTx`; the
route connection then rolls back its payment updates, so the error value
carries only the committed state. -/
def process_transaction (rows : List PaymentRow) (connPays : List PaymentRow)
    (st : DBState) (newTx : String) : Except DBState (List PaymentRow × DBState) :=
  match rows with
  | [] => .ok (connPays, st)
  | p :: rest =>
      if connPays.any (fun q => !(q.id == p.id) && q.transaction_id == some newTx) then
        .error st
      else
        let connPays' := connPays.map (fun q =>
          if q.id == p.id then
            { q with status := "success", transaction_id := some newTx }
          else q)
        let st1 := (Enrollment.create st p.user_id p.course_id).1
        let st2 := Cart.remove_item st1 p.user_id p.course_id
        process_transaction rest connPays' st2 newTx

/-- Embeds the `payment_success` route (routes/payment.py): parameter
check, stub verification, SELECT of the pending rows of the transaction
id, then the per-payment loop; on loop success the route connection
commits its payment UPDATEs. -/
def payment_success (st : DBState) (oid amt refId : Option String) :
    SuccessOutcome × DBState :=
  if paramBlank oid || paramBlank amt || paramBlank refId then
    (.invalidParams, st)
  else
    let o := oid.getD ""
    let a := amt.getD ""
    let r := refId.getD ""
    if !verify_esewa_signature [("oid", o), ("amt", a), ("refId", r)] then
      (.verifyFailed, st)
    else
      let pend := st.payments.filter
        (fun p => p.transaction_id == some o && p.status == "pending")
      if pend.isEmpty then
        (.notFound, st)
      else
        match process_transaction pend st.payments st (o ++ "_" ++ r) with
        | .error stc => (.exception, stc)
        | .ok (cp, stc) => (.enrolled, { stc with payments := cp })

/-- Embeds the `payment_failure` route (routes/payment.py): when `pid` is
present, UPDATE every payment row with that transaction id to status
failed (with no filter on the current status); otherwise no state
change. -/
def payment_failure (st : DBState) (pid : Option String) : DBState :=
  if paramBlank pid then st
  else
    let t := pid.getD ""
    { st with
      payments := st.payments.map (fun q =>
        if q.transaction_id == some t then { q with status := "failed" } else q) }

/-- Outcome of a checkout-initiation route. -/
inductive CartInitOutcome where
  | adminBlocked
  | emptyCart
  | courseNotFound
  | alreadyEnrolled
  | gateway (txid : String) (total : Int)
  | exception
deriving DecidableEq, Repr

/-- Embeds the per-item loop of `initiate_cart_payment` (routes/payment.py
lines 103-112): skip a course the user is already enrolled in, otherwise
`Payment.create` a pending row; each create commits on its own connection,
so when one raises the rows created before it persist and the error value
carries the state reached so far. -/
def cart_payment_loop (st : DBState) (u : Nat) (items : List CartItem)
    (txid : String) : Except DBState DBState :=
  match items with
  | [] => .ok st
  | item :: rest =>
      if Enrollment.is_enrolled st u item.course_id then
        cart_payment_loop st u rest txid
      else
        match Payment.create st u item.course_id item.price (some txid) "pending" with
        | .error _ => .error st
        | .ok (st', _) => cart_payment_loop st' u rest txid

/-- Embeds the `initiate_cart_payment` route (routes/payment.py): admin
guard, empty-cart guard (before any transaction id is used), total from
`Cart.get_cart_total`, then the per-item loop; on success the gateway
redirect carries the transaction id and that total. The fresh UUID is
passed in as `txid`. -/
def initiate_cart_payment (st : DBState) (u : Nat) (isAdmin : Bool)
    (txid : String) : CartInitOutcome × DBState :=
  if isAdmin then (.adminBlocked, st)
  else
    let items := Cart.get_items st u
    if items.isEmpty then (.emptyCart, st)
    else
      let total := Cart.get_cart_total st u
      match cart_payment_loop st u items txid with
      | .error stc => (.exception, stc)
      | .ok stc => (.gateway txid total, stc)

/-- Embeds the single-course `initiate_payment` route (routes/payment.py):
admin guard, course lookup, enrolled guard, then one pending payment row
and a gateway redirect carrying the course price as the total. -/
def initiate_payment (st : DBState) (u : Nat) (isAdmin : Bool) (c : Nat)
    (txid : String) : CartInitOutcome × DBState :=
  if isAdmin then (.adminBlocked, st)
  else
    match st.courses.find? (fun co => co.id == c) with
    | none => (.courseNotFound, st)
    | some co =>
        if Enrollment.is_enrolled st u c then (.alreadyEnrolled, st)
        else
          match Payment.create st u c co.price (some txid) "pending" with
          | .error _ => (.exception, st)
          | .ok (st', _) => (.gateway txid co.price, st')

/-- Outcome of the progress-update route. -/
inductive ProgressOutcome where
  | adminForbidden
  | notEnrolled
  | updated (p : Int)
deriving DecidableEq, Repr

/-- Embeds the `update_progress` route (routes/student.py): admin guard,
enrollment guard, then the clamp `progress = max(0, min(100, progress))`
and `Enrollment.update_progress` with the clamped value. -/
def update_progress_route (st : DBState) (u : Nat) (isAdmin : Bool) (c : Nat)
    (progress : Int) : ProgressOutcome × DBState :=
  if isAdmin then (.adminForbidden, st)
  else if !Enrollment.is_enrolled st u c then (.notEnrolled, st)
  else
    let p := max 0 (min 100 progress)
    (.updated p, Enrollment.update_progress st u c p)

/-- Number of enrollment rows of one (user, course) pair. -/
def enrolledCount (st : DBState) (u c : Nat) : Nat :=
  st.enrollments.countP (fun e => e.user_id == u && e.course_id == c)

/-- Payment rows of a state still pending under a transaction id. -/
def pendingRows (st : DBState) (t : String) : List PaymentRow :=
  st.payments.filter (fun p => p.transaction_id == some t && p.status == "pending")

/-- Final committed state of a run of the cart checkout loop, whether it
completed or stopped on an IntegrityError. -/
def exceptState (r : Except DBState DBState) : DBState :=
  match r with
  | .error s => s
  | .ok s => s

/-- State with two pending payment rows sharing transaction id t, exactly
the shape the spec scenario of one cart checkout with two courses
prescribes. -/
def stC1 : DBState :=
  { payments := [⟨1, 1, 1, 500, some "t", "pending"⟩, ⟨2, 1, 2, 800, some "t", "pending"⟩],
    enrollments := [], cart := [⟨1, 1⟩, ⟨1, 2⟩],
    courses := [⟨1, 500⟩, ⟨2, 800⟩], nextPaymentId := 3 }

/-- State with two pending payment rows of user 7 (courses 3 and 4)
sharing transaction id tx9. -/
def stC3 : DBState :=
  { payments := [⟨10, 7, 3, 100, some "tx9", "pending"⟩, ⟨11, 7, 4, 200, some "tx9", "pending"⟩],
    enrollments := [], cart := [⟨7, 3⟩, ⟨7, 4⟩],
    courses := [⟨3, 100⟩, ⟨4, 200⟩], nextPaymentId := 12 }

/-- State where user 1 has two courses in the cart and is enrolled in
neither. -/
def stC5 : DBState :=
  { payments := [], enrollments := [], cart := [⟨1, 1⟩, ⟨1, 2⟩],
    courses := [⟨1, 500⟩, ⟨2, 800⟩], nextPaymentId := 0 }

/-- State with a single pending payment row of amount 500 under
transaction id t. -/
def stC7 : DBState :=
  { payments := [⟨1, 1, 1, 500, some "t", "pending"⟩], enrollments := [], cart := [⟨1, 1⟩],
    courses := [⟨1, 500⟩], nextPaymentId := 2 }

/-- State holding one payment row already marked success, carrying the
audit-rewritten transaction id t_r. -/
def stC4 : DBState :=
  { payments := [⟨1, 1, 1, 500, some "t_r", "success"⟩], enrollments := [⟨1, 1, 0⟩],
    cart := [], courses := [⟨1, 500⟩], nextPaymentId := 2 }

/-- State with one success row and one failed row, with distinct primary
key ids and distinct transaction ids. -/
def stC4w : DBState :=
  { payments := [⟨1, 1, 1, 500, some "a_x", "success"⟩, ⟨2, 2, 2, 700, some "b", "failed"⟩],
    enrollments := [⟨1, 1, 0⟩], cart := [], courses := [⟨1, 500⟩, ⟨2, 700⟩],
    nextPaymentId := 3 }

/-- State where user 1 is already enrolled in course 1 yet holds both
course 1 and course 2 in the cart. -/
def stC8 : DBState :=
  { payments := [], enrollments := [⟨1, 1, 0⟩], cart := [⟨1, 1⟩, ⟨1, 2⟩],
    courses := [⟨1, 500⟩, ⟨2, 800⟩], nextPaymentId := 0 }

/-- State with a single pending payment row of user 2 for course 9 under
transaction id w. -/
def stC2w : DBState :=
  { payments := [⟨5, 2, 9, 750, some "w", "pending"⟩], enrollments := [], cart := [⟨2, 9⟩],
    courses := [⟨9, 750⟩], nextPaymentId := 6 }

/-- State stC2w after its success callback has been processed once. -/
def stC2wAfter : DBState :=
  { payments := [⟨5, 2, 9, 750, some "w_ref", "success"⟩], enrollments := [⟨2, 9, 0⟩],
    cart := [], courses := [⟨9, 750⟩], nextPaymentId := 6 }

/-- State with one pending and one success payment row under distinct
transaction ids f and g_h. -/
def stC6w : DBState :=
  { payments := [⟨1, 1, 1, 500, some "f", "pending"⟩, ⟨2, 2, 2, 300, some "g_h", "success"⟩],
    enrollments := [⟨2, 2, 0⟩], cart := [], courses := [⟨1, 500⟩, ⟨2, 300⟩],
    nextPaymentId := 3 }

/-- State where user 3 is enrolled in course 5 with progress 50. -/
def stC9w : DBState :=
  { payments := [], enrollments := [⟨3, 5, 50⟩], cart := [], courses := [⟨5, 900⟩],
    nextPaymentId := 0 }

/-- State whose user 4 has an empty cart but existing payments and
enrollments. -/
def stC10w : DBState :=
  { payments := [⟨1, 4, 1, 500, some "old", "failed"⟩], enrollments := [⟨4, 2, 10⟩],
    cart := [⟨6, 1⟩], courses := [⟨1, 500⟩, ⟨2, 300⟩], nextPaymentId := 2 }

/-! ## Claim theorems: concrete evaluations -/

/-- C1: the spec demands that a success callback over N pending payment
rows of one transaction id leaves N enrollments and zero pending rows. At
N = 2 (the very shape the spec scenario of a two-course checkout
prescribes) the code instead raises an IntegrityError when the UNIQUE
transaction id column receives the same rewritten value twice: the run
ends in an exception, both rows are still pending afterwards, and only the
first (user, course) pair got its enrollment. -/
theorem C1_two_pending_rows_callback_raises :
    (pendingRows stC1 "t").length = 2 ∧
    (payment_success stC1 (some "t") (some "500") (some "r")).1 = SuccessOutcome.exception ∧
    (pendingRows (payment_success stC1 (some "t") (some "500") (some "r")).2 "t").length = 2 ∧
    enrolledCount (payment_success stC1 (some "t") (some "500") (some "r")).2 1 1 = 1 ∧
    enrolledCount (payment_success stC1 (some "t") (some "500") (some "r")).2 1 2 = 0 := by
  decide

/-- C3: the success callback over a transaction id with two pending rows
is not atomic. The enrollment of the first course commits at once on its
own connection; the UPDATE of the second row then raises (UNIQUE
transaction id) and rolls back only the payment updates, leaving course 3
enrolled and course 4 not — the partial commit the claim rules out. -/
theorem C3_partial_commit_on_two_rows :
    (payment_success stC3 (some "tx9") (some "300") (some "rr")).1 = SuccessOutcome.exception ∧
    enrolledCount (payment_success stC3 (some "tx9") (some "300") (some "rr")).2 7 3 = 1 ∧
    enrolledCount (payment_success stC3 (some "tx9") (some "300") (some "rr")).2 7 4 = 0 ∧
    (pendingRows (payment_success stC3 (some "tx9") (some "300") (some "rr")).2 "tx9").length = 2 := by
  decide

/-- C5: a cart checkout of two not-enrolled courses does not create two
pending rows sharing the transaction id: the payments schema declares the
transaction id UNIQUE, so the second INSERT raises an uncaught
IntegrityError. Only the first row (already committed by its own
connection) exists afterwards and no gateway handoff happens. -/
theorem C5_cart_checkout_two_courses_raises :
    (initiate_cart_payment stC5 1 false "T").1 = CartInitOutcome.exception ∧
    (initiate_cart_payment stC5 1 false "T").2.payments.length = 1 ∧
    ((initiate_cart_payment stC5 1 false "T").2.payments.filter
      (fun q => q.transaction_id == some "T" && q.status == "pending")).length = 1 := by
  decide

/-- C7: the verification predicate does not compare the claimed amount
with the stored one. With a stored pending row of amount 500 and a
callback claiming amount 999, `verify_esewa_signature` still returns true
and the callback is fully processed: the row leaves pending and an
enrollment is created, where the claim requires a rejection that leaves
the row pending and creates no enrollment. -/
theorem C7_amount_mismatch_accepted :
    verify_esewa_signature [("oid", "t"), ("amt", "999"), ("refId", "r")] = true ∧
    (payment_success stC7 (some "t") (some "999") (some "r")).1 = SuccessOutcome.enrolled ∧
    pendingRows (payment_success stC7 (some "t") (some "999") (some "r")).2 "t" = [] ∧
    enrolledCount (payment_success stC7 (some "t") (some "999") (some "r")).2 1 1 = 1 := by
  decide

/-- C4 counterexample: a payment row can transition out of success. The
failure callback updates by transaction id with no status filter, so with
a row already marked success under its rewritten transaction id t_r, a
failure callback carrying pid t_r flips it to failed. -/
theorem C4_counterexample_success_to_failed :
    stC4.payments.map (fun q => q.status) = ["success"] ∧
    (payment_failure stC4 (some "t_r")).payments.map (fun q => q.status) = ["failed"] := by
  decide

/-- C8 counterexample: with user 1 enrolled in course 1 (price 500) and a
cart holding courses 1 and 2 (price 800), checkout creates only the row
for course 2, yet hands the gateway the full cart total 1300 — not the
sum 800 of the per-item amounts of the rows actually created. -/
theorem C8_counterexample_total_includes_skipped :
    (initiate_cart_payment stC8 1 false "T").1 = CartInitOutcome.gateway "T" 1300 ∧
    (((initiate_cart_payment stC8 1 false "T").2.payments.filter
        (fun q => q.transaction_id == some "T")).map (fun q => q.amount)).sum = 800 ∧
    (1300 : Int) ≠ 800 := by
  decide

/-! ## Helper lemmas -/

theorem Enrollment.create_payments_eq (st : DBState) (u c : Nat) :
    ((Enrollment.create st u c).1).payments = st.payments := by
  unfold Enrollment.create
  split <;> rfl

theorem Cart.remove_item_payments_eq (st : DBState) (u c : Nat) :
    (Cart.remove_item st u c).payments = st.payments := rfl

theorem process_transaction_error_payments (ntx : String) :
    ∀ (rows cp : List PaymentRow) (st s : DBState),
      process_transaction rows cp st ntx = .error s → s.payments = st.payments := by
  intro rows
  induction rows with
  | nil => intro cp st s h; simp [process_transaction] at h
  | cons p rest ih =>
      intro cp st s h
      unfold process_transaction at h
      split at h
      · cases h; rfl
      · have := ih _ _ _ h
        rw [this, Cart.remove_item_payments_eq, Enrollment.create_payments_eq]

theorem process_transaction_ok_no_pending (o ntx : String) :
    ∀ (rows cp cp' : List PaymentRow) (st s : DBState),
      (∀ q ∈ cp, q.transaction_id = some o → q.status = "pending" → ∃ p ∈ rows, p.id = q.id) →
      process_transaction rows cp st ntx = .ok (cp', s) →
      ∀ q ∈ cp', q.transaction_id = some o → q.status ≠ "pending" := by
  intro rows
  induction rows with
  | nil =>
      intro cp cp' st s hinv h q hq htx hst
      unfold process_transaction at h
      cases h
      obtain ⟨p, hp, _⟩ := hinv q hq htx hst
      exact absurd hp (List.not_mem_nil p)
  | cons p rest ih =>
      intro cp cp' st s hinv h q hq htx hst
      unfold process_transaction at h
      split at h
      · cases h
      · refine ih _ _ _ _ ?_ h q hq htx hst
        intro q' hq' htx' hst'
        rw [List.mem_map] at hq'
        obtain ⟨q0, hq0, hq0eq⟩ := hq'
        by_cases hid : (q0.id == p.id) = true
        · rw [if_pos hid] at hq0eq
          rw [← hq0eq] at hst'
          simp at hst'
        · rw [if_neg hid] at hq0eq
          subst hq0eq
          obtain ⟨p', hp', hp'id⟩ := hinv q0 hq0 htx' hst'
          rcases List.mem_cons.mp hp' with hpe | hpr
          · subst hpe
            rw [hp'id] at hid
            simp at hid
          · exact ⟨p', hpr, hp'id⟩

theorem verify_always (o a r : String) :
    verify_esewa_signature [("oid", o), ("amt", a), ("refId", r)] = true := by
  simp [verify_esewa_signature]

theorem payment_success_eq (st : DBState) (t a r : String)
    (ht : (t == "") = false) (ha : (a == "") = false) (hr : (r == "") = false) :
    payment_success st (some t) (some a) (some r) =
      (if (pendingRows st t).isEmpty then (SuccessOutcome.notFound, st)
       else
         match process_transaction (pendingRows st t) st.payments st (t ++ "_" ++ r) with
         | .error stc => (SuccessOutcome.exception, stc)
         | .ok (cp, stc) => (SuccessOutcome.enrolled, { stc with payments := cp })) := by
  unfold payment_success
  simp only [paramBlank, ht, ha, hr, Option.getD_some, Bool.or_self, Bool.or_false,
    Bool.false_or, verify_always, Bool.not_true, Bool.false_eq_true, if_false]
  rfl

theorem payment_success_blank (st : DBState) (oid amt refId : Option String)
    (hb : (paramBlank oid || paramBlank amt || paramBlank refId) = true) :
    payment_success st oid amt refId = (SuccessOutcome.invalidParams, st) := by
  unfold payment_success
  rw [if_pos hb]

theorem paramBlank_false_shape (o : Option String) (h : paramBlank o = false) :
    ∃ t, o = some t ∧ (t == "") = false := by
  cases o with
  | none => simp [paramBlank] at h
  | some t => exact ⟨t, rfl, by simpa [paramBlank] using h⟩

theorem process_transaction_ok_preserves (ntx : String) :
    ∀ (rows cp cp' : List PaymentRow) (st s : DBState) (q : PaymentRow),
      process_transaction rows cp st ntx = .ok (cp', s) →
      q ∈ cp → (∀ p ∈ rows, p.id ≠ q.id) → q ∈ cp' := by
  intro rows
  induction rows with
  | nil =>
      intro cp cp' st s q h hq _
      unfold process_transaction at h
      cases h
      exact hq
  | cons p rest ih =>
      intro cp cp' st s q h hq hids
      unfold process_transaction at h
      split at h
      · cases h
      · refine ih _ _ _ _ q h ?_ ?_
        · rw [List.mem_map]
          refine ⟨q, hq, ?_⟩
          have : (q.id == p.id) = false := by
            have := hids p (List.mem_cons_self p rest)
            simp [beq_eq_false_iff_ne]
            omega
          rw [this]
          simp
        · intro p' hp'
          exact hids p' (List.mem_cons_of_mem p hp')

theorem payment_success_preserves_row (st : DBState) (oid amt refId : Option String)
    (hid : st.payments.Pairwise (fun x y => x.id ≠ y.id)) (q : PaymentRow)
    (hq : q ∈ st.payments) (hnp : q.status ≠ "pending") :
    q ∈ (payment_success st oid amt refId).2.payments := by
  cases hb : (paramBlank oid || paramBlank amt || paramBlank refId) with
  | true =>
      rw [payment_success_blank st _ _ _ hb]
      exact hq
  | false =>
      rw [Bool.or_eq_false_iff, Bool.or_eq_false_iff] at hb
      obtain ⟨⟨h1, h2⟩, h3⟩ := hb
      obtain ⟨t, rfl, ht⟩ := paramBlank_false_shape _ h1
      obtain ⟨a, rfl, ha⟩ := paramBlank_false_shape _ h2
      obtain ⟨r, rfl, hr⟩ := paramBlank_false_shape _ h3
      rw [payment_success_eq st t a r ht ha hr]
      split
      · exact hq
      · split
        · rename_i stc herr
          have := process_transaction_error_payments (t ++ "_" ++ r) _ _ _ _ herr
          simpa [this] using hq
        · rename_i cp stc hok
          simp only
          refine process_transaction_ok_preserves (t ++ "_" ++ r) _ _ _ _ _ q hok hq ?_
          intro p hp
          unfold pendingRows at hp
          rw [List.mem_filter] at hp
          obtain ⟨hpmem, hppred⟩ := hp
          simp only [Bool.and_eq_true, beq_iff_eq] at hppred
          intro hidq
          by_cases hpq : p = q
          · rw [hpq] at hppred
            exact hnp hppred.2
          · exact List.Pairwise.forall (fun x y hxy => hxy.symm) hid hpmem hq hpq hidq

theorem payment_failure_preserves_other_tx (st : DBState) (pp : String) (q : PaymentRow)
    (hq : q ∈ st.payments) (htx : q.transaction_id ≠ some pp) :
    q ∈ (payment_failure st (some pp)).payments := by
  unfold payment_failure
  split
  · exact hq
  · simp only
    rw [List.mem_map]
    refine ⟨q, hq, ?_⟩
    rw [if_neg]
    simp only [beq_iff_eq]
    exact htx

theorem payment_failure_keeps_failed (st : DBState) (pid : Option String) (q : PaymentRow)
    (hq : q ∈ st.payments) (hst : q.status = "failed") :
    ∃ q' ∈ (payment_failure st pid).payments, q'.id = q.id ∧ q'.status = "failed" := by
  unfold payment_failure
  split
  · exact ⟨q, hq, rfl, hst⟩
  · simp only
    by_cases h : (q.transaction_id == some (pid.getD "")) = true
    · refine ⟨{ q with status := "failed" }, ?_, rfl, rfl⟩
      rw [List.mem_map]
      exact ⟨q, hq, by rw [if_pos h]⟩
    · refine ⟨q, ?_, rfl, hst⟩
      rw [List.mem_map]
      exact ⟨q, hq, by rw [if_neg h]⟩

theorem Payment.create_ok_shape (st st' : DBState) (u c : Nat) (amount : Int)
    (t status : String) (n : Nat)
    (h : Payment.create st u c amount (some t) status = .ok (st', n)) :
    st'.payments = st.payments ++ [⟨st.nextPaymentId, u, c, amount, some t, status⟩] ∧
    st'.enrollments = st.enrollments := by
  simp only [Payment.create] at h
  split at h
  · cases h
  · cases h
    exact ⟨rfl, rfl⟩

theorem cart_loop_preserves (u : Nat) (txid : String) :
    ∀ (items : List CartItem) (st : DBState) (q : PaymentRow),
      q ∈ st.payments →
      q ∈ (exceptState (cart_payment_loop st u items txid)).payments := by
  intro items
  induction items with
  | nil =>
      intro st q hq
      exact hq
  | cons item rest ih =>
      intro st q hq
      unfold cart_payment_loop
      split
      · exact ih st q hq
      · split
        · exact hq
        · rename_i st' n hok
          refine ih st' q ?_
          rw [(Payment.create_ok_shape st st' u item.course_id item.price txid "pending" n hok).1]
          exact List.mem_append_left _ hq

theorem cart_loop_enrollments_eq (u : Nat) (txid : String) :
    ∀ (items : List CartItem) (st : DBState),
      (exceptState (cart_payment_loop st u items txid)).enrollments = st.enrollments := by
  intro items
  induction items with
  | nil => intro st; rfl
  | cons item rest ih =>
      intro st
      unfold cart_payment_loop
      split
      · exact ih st
      · split
        · rfl
        · rename_i st' n hok
          rw [ih st']
          exact (Payment.create_ok_shape st st' u item.course_id item.price txid "pending" n hok).2

theorem is_enrolled_congr (st st' : DBState) (u c : Nat)
    (h : st'.enrollments = st.enrollments) :
    Enrollment.is_enrolled st' u c = Enrollment.is_enrolled st u c := by
  unfold Enrollment.is_enrolled
  rw [h]

theorem cart_loop_sound (u : Nat) (txid : String) :
    ∀ (items : List CartItem) (st : DBState) (q : PaymentRow),
      q ∈ (exceptState (cart_payment_loop st u items txid)).payments →
      q ∈ st.payments ∨
        (Enrollment.is_enrolled st u q.course_id = false ∧
         ∃ item ∈ items, item.course_id = q.course_id ∧ q.amount = item.price ∧
           q.transaction_id = some txid ∧ q.status = "pending") := by
  intro items
  induction items with
  | nil =>
      intro st q hq
      exact Or.inl hq
  | cons item rest ih =>
      intro st q hq
      unfold cart_payment_loop at hq
      split at hq
      · rcases ih st q hq with hl | ⟨he, it, hit, hrest⟩
        · exact Or.inl hl
        · exact Or.inr ⟨he, it, List.mem_cons_of_mem item hit, hrest⟩
      · rename_i henr
        split at hq
        · exact Or.inl hq
        · rename_i st' n hok
          obtain ⟨hpays, henrs⟩ :=
            Payment.create_ok_shape st st' u item.course_id item.price txid "pending" n hok
          rcases ih st' q hq with hl | ⟨he, it, hit, hrest⟩
          · rw [hpays, List.mem_append] at hl
            rcases hl with hl | hnew
            · exact Or.inl hl
            · rw [List.mem_singleton] at hnew
              subst hnew
              refine Or.inr ⟨?_, item, List.mem_cons_self item rest, rfl, rfl, rfl, rfl⟩
              simpa using henr
          · refine Or.inr ⟨?_, it, List.mem_cons_of_mem item hit, hrest⟩
            rw [← is_enrolled_congr st st' u q.course_id henrs]
            exact he

/-! ## Claim theorems: general statements -/

/-- C2: replaying an identical success callback after a first successful
processing is a safe no-op. The first run rewrote every formerly pending
row of the transaction id to status success, so the second run selects
zero pending rows, reports the transaction as already processed, and
returns the state unchanged. -/
theorem C2_replay_is_noop (st st' : DBState) (t a r : String)
    (h : payment_success st (some t) (some a) (some r) = (SuccessOutcome.enrolled, st')) :
    payment_success st' (some t) (some a) (some r) = (SuccessOutcome.notFound, st') := by
  have hblank : (paramBlank (some t) || paramBlank (some a) || paramBlank (some r)) = false := by
    by_contra hc
    rw [Bool.not_eq_false] at hc
    rw [payment_success_blank st _ _ _ hc] at h
    simp at h
  rw [Bool.or_eq_false_iff, Bool.or_eq_false_iff] at hblank
  obtain ⟨⟨h1, h2⟩, h3⟩ := hblank
  have ht : (t == "") = false := by simpa [paramBlank] using h1
  have ha : (a == "") = false := by simpa [paramBlank] using h2
  have hr : (r == "") = false := by simpa [paramBlank] using h3
  rw [payment_success_eq st t a r ht ha hr] at h
  rw [payment_success_eq st' t a r ht ha hr]
  split at h
  · cases h
  · rename_i hne
    split at h
    · cases h
    · rename_i cp stc hok
      cases h
      have hnopend : ∀ q ∈ cp, q.transaction_id = some t → q.status ≠ "pending" := by
        refine process_transaction_ok_no_pending t (t ++ "_" ++ r) _ _ _ _ _ ?_ hok
        intro q hq htx hst
        refine ⟨q, ?_, rfl⟩
        unfold pendingRows
        rw [List.mem_filter]
        refine ⟨hq, ?_⟩
        simp [htx, hst]
      have hempty : pendingRows { stc with payments := cp } t = [] := by
        unfold pendingRows
        apply List.filter_eq_nil_iff.mpr
        intro q hq
        simp only [Bool.and_eq_true, beq_iff_eq]
        rintro ⟨hq1, hq2⟩
        exact hnopend q hq hq1 hq2
      rw [hempty]
      rfl

/-- C4 (amended): with pairwise distinct payment primary keys, the success
callback never touches a row already marked success or failed; the failure
callback keeps every failed row failed and leaves every row with a
different stored transaction id unchanged; both checkout initiations only
add rows; and since the success callback rewrites the transaction id of
every row it processes to oid plus underscore plus refId, a later failure
callback with the original oid leaves those rows unchanged. The
unamendable part of the original claim is refuted separately: a failure
callback whose pid equals the rewritten stored id does flip a success row
to failed. -/
theorem C4_amended_terminal_statuses (st : DBState) (oid amt refId pid : Option String)
    (pp : String) (u c : Nat) (txid : String) (t a r : String)
    (hid : st.payments.Pairwise (fun x y => x.id ≠ y.id)) :
    (∀ q ∈ st.payments, (q.status = "success" ∨ q.status = "failed") →
        q ∈ (payment_success st oid amt refId).2.payments) ∧
    (∀ q ∈ st.payments, q.status = "failed" →
        ∃ q' ∈ (payment_failure st pid).payments, q'.id = q.id ∧ q'.status = "failed") ∧
    (∀ q ∈ st.payments, q.transaction_id ≠ some pp →
        q ∈ (payment_failure st (some pp)).payments) ∧
    (∀ q ∈ st.payments, q ∈ (initiate_cart_payment st u false txid).2.payments) ∧
    (∀ q ∈ st.payments, q ∈ (initiate_payment st u false c txid).2.payments) ∧
    (∀ q ∈ (payment_success st (some t) (some a) (some r)).2.payments,
        q.transaction_id = some (t ++ "_" ++ r) →
        q ∈ (payment_failure ((payment_success st (some t) (some a) (some r)).2)
              (some t)).payments) := by
  refine ⟨?_, ?_, ?_, ?_, ?_, ?_⟩
  · intro q hq hterm
    refine payment_success_preserves_row st oid amt refId hid q hq ?_
    rcases hterm with h | h <;> rw [h] <;> decide
  · intro q hq hst
    exact payment_failure_keeps_failed st pid q hq hst
  · intro q hq htx
    exact payment_failure_preserves_other_tx st pp q hq htx
  · intro q hq
    unfold initiate_cart_payment
    simp only [Bool.false_eq_true, if_false]
    split
    · exact hq
    · split
      · rename_i stc heq
        have := cart_loop_preserves u txid (Cart.get_items st u) st q hq
        rw [heq] at this
        exact this
      · rename_i stc heq
        have := cart_loop_preserves u txid (Cart.get_items st u) st q hq
        rw [heq] at this
        exact this
  · intro q hq
    unfold initiate_payment
    simp only [Bool.false_eq_true, if_false]
    split
    · exact hq
    · split
      · exact hq
      · split
        · exact hq
        · rename_i st' n hok
          rw [(Payment.create_ok_shape st st' u c _ txid "pending" n hok).1]
          exact List.mem_append_left _ hq
  · intro q hq htx
    refine payment_failure_preserves_other_tx _ t q hq ?_
    rw [htx]
    intro hcontra
    have hlen := congrArg String.length (Option.some.inj hcontra)
    have h1 : ("_" : String).length = 1 := rfl
    simp [String.length_append, h1] at hlen
    omega

/-- C6: a failure callback carrying a non-blank transaction id leaves
every payment row of that transaction id with status failed, creates no
enrollment, and a failure callback with a missing or empty pid changes
nothing. -/
theorem C6_failure_callback (st : DBState) (p : String) (hp : p ≠ "") :
    (∀ q ∈ (payment_failure st (some p)).payments,
        q.transaction_id = some p → q.status = "failed") ∧
    (payment_failure st (some p)).enrollments = st.enrollments ∧
    payment_failure st none = st ∧
    payment_failure st (some "") = st := by
  have hb : paramBlank (some p) = false := by simpa [paramBlank] using hp
  refine ⟨?_, ?_, ?_, ?_⟩
  · intro q hq htx
    unfold payment_failure at hq
    rw [hb] at hq
    simp only [Bool.false_eq_true, if_false] at hq
    rw [List.mem_map] at hq
    obtain ⟨q0, hq0, hq0eq⟩ := hq
    by_cases hc : (q0.transaction_id == some ((some p).getD "")) = true
    · rw [if_pos hc] at hq0eq
      rw [← hq0eq]
    · rw [if_neg hc] at hq0eq
      subst hq0eq
      rw [htx] at hc
      simp at hc
  · unfold payment_failure
    split <;> rfl
  · rfl
  · rfl

/-- C8 (amended): every payment row a cart checkout adds belongs to a cart
item of a course the user is not enrolled in (already-enrolled courses are
silently skipped), with the item price as its amount; but the total handed
to the gateway is the full cart total over ALL cart items, including the
skipped ones — not the sum of the amounts of the rows actually created,
which the counterexample shows can differ. -/
theorem C8_amended_skip_and_total (st : DBState) (u : Nat) (txid : String) :
    (∀ q ∈ (initiate_cart_payment st u false txid).2.payments, q ∉ st.payments →
        Enrollment.is_enrolled st u q.course_id = false ∧
        ∃ item ∈ Cart.get_items st u, item.course_id = q.course_id ∧ q.amount = item.price ∧
          q.transaction_id = some txid ∧ q.status = "pending") ∧
    (∀ tx tot, (initiate_cart_payment st u false txid).1 = CartInitOutcome.gateway tx tot →
        tot = Cart.get_cart_total st u) := by
  unfold initiate_cart_payment
  simp only [Bool.false_eq_true, if_false]
  split
  · constructor
    · intro q hq hnot
      exact absurd hq hnot
    · intro tx tot h
      simp at h
  · split
    · rename_i stc heq
      constructor
      · intro q hq hnot
        have := cart_loop_sound u txid (Cart.get_items st u) st q
        rw [heq] at this
        rcases this hq with hl | ⟨he, it, hit, h1, h2, h3, h4⟩
        · exact absurd hl hnot
        · exact ⟨he, it, hit, h1, h2, h3, h4⟩
      · intro tx tot h
        simp at h
    · rename_i stc heq
      constructor
      · intro q hq hnot
        have := cart_loop_sound u txid (Cart.get_items st u) st q
        rw [heq] at this
        rcases this hq with hl | ⟨he, it, hit, h1, h2, h3, h4⟩
        · exact absurd hl hnot
        · exact ⟨he, it, hit, h1, h2, h3, h4⟩
      · intro tx tot h
        cases h
        rfl

/-- C9: after a progress update by an enrolled non-admin user, every
enrollment row of that (user, course) pair stores the clamped value
max 0 (min 100 input), which lies in the interval from 0 to 100; inputs
below 0 are stored as 0 and inputs above 100 as 100. -/
theorem C9_progress_clamped (st : DBState) (u c : Nat) (p : Int)
    (h : Enrollment.is_enrolled st u c = true) :
    (∃ e ∈ (update_progress_route st u false c p).2.enrollments,
        e.user_id = u ∧ e.course_id = c) ∧
    (∀ e ∈ (update_progress_route st u false c p).2.enrollments,
        e.user_id = u → e.course_id = c →
        e.progress = max 0 (min 100 p) ∧ 0 ≤ e.progress ∧ e.progress ≤ 100 ∧
        (p < 0 → e.progress = 0) ∧ (100 < p → e.progress = 100)) := by
  unfold update_progress_route
  simp only [h, Bool.not_true, Bool.false_eq_true, if_false]
  constructor
  · unfold Enrollment.is_enrolled at h
    rw [List.any_eq_true] at h
    obtain ⟨e, he, hpred⟩ := h
    simp only [Bool.and_eq_true, beq_iff_eq] at hpred
    have hcond : (e.user_id == u && e.course_id == c) = true := by
      simp [hpred.1, hpred.2]
    refine ⟨{ e with progress := max 0 (min 100 p) }, ?_, hpred.1, hpred.2⟩
    unfold Enrollment.update_progress
    simp only [List.mem_map]
    exact ⟨e, he, by rw [if_pos hcond]⟩
  · intro e' he' hu hc
    unfold Enrollment.update_progress at he'
    simp only [List.mem_map] at he'
    obtain ⟨e0, he0, he0eq⟩ := he'
    by_cases hcnd : (e0.user_id == u && e0.course_id == c) = true
    · rw [if_pos hcnd] at he0eq
      rw [← he0eq]
      refine ⟨rfl, ?_, ?_, ?_, ?_⟩
      · simp only [max_def, min_def]
        split_ifs <;> omega
      · simp only [max_def, min_def]
        split_ifs <;> omega
      · intro hp
        simp only [max_def, min_def]
        split_ifs <;> omega
      · intro hp
        simp only [max_def, min_def]
        split_ifs <;> omega
    · rw [if_neg hcnd] at he0eq
      subst he0eq
      rw [hu, hc] at hcnd
      simp at hcnd

/-- C10: a cart checkout on an empty cart returns the empty-cart redirect
with the state untouched, creates no payment rows and reaches no gateway
handoff; the result does not depend on the transaction id argument, so no
transaction identifier is consumed. -/
theorem C10_empty_cart_noop (st : DBState) (u : Nat) (txid : String)
    (h : Cart.get_items st u = []) :
    initiate_cart_payment st u false txid = (CartInitOutcome.emptyCart, st) ∧
    ∀ txid', initiate_cart_payment st u false txid' = (CartInitOutcome.emptyCart, st) := by
  have key : ∀ tx : String, initiate_cart_payment st u false tx = (.emptyCart, st) := by
    intro tx
    unfold initiate_cart_payment
    simp only [Bool.false_eq_true, if_false, h]
    rfl
  exact ⟨key txid, key⟩

/-! ## Witnesses -/

/-- Witness for C2 at a concrete one-row state. -/
theorem C2_replay_witness :
    payment_success stC2wAfter (some "w") (some "750") (some "ref") =
      (SuccessOutcome.notFound, stC2wAfter) :=
  C2_replay_is_noop stC2w stC2wAfter "w" "750" "ref" (by decide)

/-- Witness for the amended C4 at a concrete two-row state. -/
theorem C4_terminal_statuses_witness :
    (⟨1, 1, 1, 500, some "a_x", "success"⟩ : PaymentRow) ∈
      (payment_success stC4w (some "q") (some "1") (some "z")).2.payments ∧
    (⟨1, 1, 1, 500, some "a_x", "success"⟩ : PaymentRow) ∈
      (payment_failure stC4w (some "zz")).payments := by
  have H := C4_amended_terminal_statuses stC4w (some "q") (some "1") (some "z") (some "zz")
    "zz" 1 1 "T" "q2" "1" "z2" (by decide)
  exact ⟨H.1 _ (by decide) (Or.inl rfl), H.2.2.1 _ (by decide) (by decide)⟩

/-- Witness for C6 at a concrete two-row state. -/
theorem C6_failure_witness :
    PaymentRow.status ⟨1, 1, 1, 500, some "f", "failed"⟩ = "failed" ∧
    (payment_failure stC6w (some "f")).enrollments = stC6w.enrollments := by
  have H := C6_failure_callback stC6w "f" (by decide)
  exact ⟨H.1 ⟨1, 1, 1, 500, some "f", "failed"⟩ (by decide) rfl, H.2.1⟩

/-- Witness for the amended C8 at the concrete enrolled-course state. -/
theorem C8_skip_and_total_witness :
    Enrollment.is_enrolled stC8 1 2 = false ∧ (1300 : Int) = Cart.get_cart_total stC8 1 := by
  have H := C8_amended_skip_and_total stC8 1 "T"
  exact ⟨(H.1 ⟨0, 1, 2, 800, some "T", "pending"⟩ (by decide) (by decide)).1,
    H.2 "T" 1300 (by decide)⟩

/-- Witness for C9 at a concrete enrolled state with raw input -7. -/
theorem C9_progress_witness :
    EnrollmentRow.progress ⟨3, 5, 0⟩ = max 0 (min 100 (-7 : Int)) ∧
    EnrollmentRow.progress ⟨3, 5, 0⟩ = 0 := by
  have H := C9_progress_clamped stC9w 3 5 (-7) (by decide)
  have h2 := H.2 ⟨3, 5, 0⟩ (by decide) rfl rfl
  exact ⟨h2.1, h2.2.2.2.1 (by decide)⟩

/-- Witness for C10 at a concrete empty-cart state. -/
theorem C10_empty_cart_witness :
    initiate_cart_payment stC10w 4 false "T" = (CartInitOutcome.emptyCart, stC10w) :=
  (C10_empty_cart_noop stC10w 4 "T" (by decide)).1
